import Mathlib

/-!
Verification of the latency middlebox packet pipeline (latency-plugin/latency/node.c).

The development shallowly embeds the per-packet body of `latency_node_fn` over a
byte-buffer model.  Machine integers are modelled as `Nat` with explicit
`% 2^w` where the C code's fixed-width arithmetic can wrap: the buffer's
`current_length` counter is 16-bit (as `vlib_buffer_t.current_length`), the
session packet counter is 32-bit, and the PLUS hop-count byte is 8-bit.
The `total_advance` accumulator is a `u8` in the source; every path through the
node accumulates at most 48 bytes of advance, so plain `Nat` addition is exact
for it.

Helpers that node.c calls but whose bodies live outside the given source
(`latency.h`, `latency.c`, the VPP library) are modelled from the
specification; each such definition carries a doc comment starting with
`Modelled from the spec:`.
-/

namespace VppLatency

/-- A packet buffer handle: byte contents, the read cursor (`current_data`) and
the remaining-length counter (`current_length`, 16-bit in `vlib_buffer_t`). -/
structure VBuf where
  data : List Nat
  cursor : Nat
  len : Nat
deriving Repr, DecidableEq

/-- Read one byte at absolute offset `p` (out-of-range reads yield 0; the C
code would read unspecified bytes there, and no control flow in the node
depends on such bytes beyond what the claims inspect). -/
def rd8 (b : VBuf) (p : Nat) : Nat := b.data.getD p 0

/-- Big-endian 16-bit read (network byte order, as `clib_net_to_host_u16`). -/
def be16 (b : VBuf) (p : Nat) : Nat := 256 * rd8 b p + rd8 b (p + 1)

/-- Big-endian 32-bit read. -/
def be32 (b : VBuf) (p : Nat) : Nat :=
  256 * (256 * (256 * rd8 b p + rd8 b (p + 1)) + rd8 b (p + 2)) + rd8 b (p + 3)

/-- Big-endian 64-bit read. -/
def be64 (b : VBuf) (p : Nat) : Nat := 4294967296 * be32 b p + be32 b (p + 4)

/-- Write one byte at absolute offset `p` (no-op when out of range, mirroring
that the node only writes inside the parsed headers). -/
def wr8 (b : VBuf) (p v : Nat) : VBuf := { b with data := b.data.set p v }

/-- Big-endian 16-bit write. -/
def wrBe16 (b : VBuf) (p v : Nat) : VBuf :=
  wr8 (wr8 b p (v / 256 % 256)) (p + 1) (v % 256)

/-- Big-endian 32-bit write (four byte stores). -/
def wrBe32 (b : VBuf) (p v : Nat) : VBuf :=
  wr8 (wr8 (wr8 (wr8 b p (v / 16777216 % 256)) (p + 1) (v / 65536 % 256))
      (p + 2) (v / 256 % 256)) (p + 3) (v % 256)

/-- `vlib_buffer_advance (b, n)` for `0 ≤ n ≤ 65536`: the cursor moves forward
and `current_length` decreases with 16-bit wrap-around. -/
def VBuf.advance (b : VBuf) (n : Nat) : VBuf :=
  { b with cursor := b.cursor + n, len := (b.len + 65536 - n) % 65536 }

/-- `vlib_buffer_advance (b, -n)`: the restoring move at the `skip_packet`
label; the cursor moves back and `current_length` grows with 16-bit wrap. -/
def VBuf.retreat (b : VBuf) (n : Nat) : VBuf :=
  { b with cursor := b.cursor - n, len := (b.len + n) % 65536 }

/-- The buffer cursor paired with the node's `total_advance` accumulator; the
two are updated in lockstep exactly as the paired statements in node.c. -/
structure Cur where
  b : VBuf
  total : Nat
deriving Repr, DecidableEq

/-- One paired `vlib_buffer_advance` / `total_advance +=` step. -/
def Cur.adv (c : Cur) (n : Nat) : Cur := ⟨c.b.advance n, c.total + n⟩

/-- Protocol variant tags; the trace formatter indexes
`{"TCP", "QUIC", "PLUS"}` by this value. -/
def P_TCP : Nat := 0

def P_QUIC : Nat := 1

def P_PLUS : Nat := 2

def LATENCY_STATE_ACTIVE : Nat := 0

def LATENCY_STATE_ERROR : Nat := 1

/-- Timeout in 100 ms ticks (node.c `#define TIMEOUT 300`). -/
def TIMEOUT : Nat := 300

/-- Modelled from the spec: the PLUS magic/flag constants come from
`plus_packet.h`, which is not under src/.  The spec says the magic+flags byte
has the magic in its high bits and the EXTENDED flag among its low bits. -/
def MAGIC_MASK : Nat := 0xF0

/-- Modelled from the spec: the PLUS magic value (high bits of the
magic+flags byte). -/
def MAGIC : Nat := 0xD0

/-- Modelled from the spec: the EXTENDED flag bit of the PLUS magic+flags
byte. -/
def EXTENDED : Nat := 0x01

/-- A session record (spec §3); `est_updates` counts estimator invocations,
see `est_step`. -/
structure LatencySession where
  p_type : Nat
  key : Nat
  key_reverse : Nat
  init_src_port : Nat
  init_src_ip : Nat
  new_dst_ip : Nat
  pkt_count : Nat
  state : Nat
  quic_id : Nat
  plus_cat : Nat
  est_updates : Nat
  timer : Nat
deriving Repr, DecidableEq

/-- The pipeline instance state: key → session-index table, session pool and
the allocation counter of the pool. -/
structure LatencyState where
  tbl : Nat → Option Nat
  pool : Nat → Option LatencySession
  next_index : Nat

/-- Immutable configuration (spec §5): QUIC port and destination map. -/
structure Config where
  quicPort : Nat
  dstMap : Nat → Nat

/-- Per-packet observable effects, set exactly where node.c performs the
corresponding call: `matched` when a non-null session reaches the tail,
`created` at `create_session`, `estRan` at an `update_*_rtt_estimate` call,
`hopInc` at the PLUS hop-count write, `rewrote` after `ip_nat_translation`
succeeds, `checksummed` at the checksum stores, `rearmed` at `update_timer`. -/
structure Effects where
  skipped : Bool
  matched : Bool
  created : Bool
  estRan : Bool
  hopInc : Bool
  rewrote : Bool
  checksummed : Bool
  rearmed : Bool
deriving Repr, DecidableEq

def eff0 : Effects := ⟨false, false, false, false, false, false, false, false⟩

/-- Result of processing one packet.  `next` is the next-node index; node.c
initializes `next0 = 0` (`IP4_LOOKUP`) and never changes it, so no packet is
dropped or redirected. -/
structure PktOut where
  st : LatencyState
  buf : VBuf
  eff : Effects
  next : Nat

/-- Exit through the `skip_packet` label: restore the cursor by
`total_advance` and forward. -/
def skipOut (st : LatencyState) (c : Cur) (e : Effects) : PktOut :=
  ⟨st, c.b.retreat c.total, { e with skipped := true }, 0⟩

/-- Normal exit: restore the cursor by `total_advance` and forward. -/
def doneOut (st : LatencyState) (c : Cur) (e : Effects) : PktOut :=
  ⟨st, c.b.retreat c.total, e, 0⟩

/-- Modelled from the spec: `make_key` (latency.h, not under src/)
canonicalizes (src_ip, dst_ip, src_port, dst_port, protocol) into one 64-bit
value. -/
def make_key (src dst sport dport proto : Nat) : Nat :=
  ((src * 4294967296 + dst) ^^^ (sport * 131072 + dport * 4 + proto)) %
    18446744073709551616

/-- Modelled from the spec: `make_plus_key` additionally folds the 64-bit CAT
into the key, so two UDP 4-tuples with different CATs are distinct flows. -/
def make_plus_key (src dst sport dport proto cat : Nat) : Nat :=
  (make_key src dst sport dport proto ^^^ cat) % 18446744073709551616

/-- Modelled from the spec: `get_new_dst` (destination map, spec §4.1) is a
flat per-port lookup; 0 means the port is not mapped. -/
def get_new_dst (cfg : Config) (port : Nat) : Nat := cfg.dstMap port

/-- Modelled from the spec: `is_quic` holds when either endpoint uses the
configured QUIC port (spec §4.4). -/
def is_quic (cfg : Config) (sport dport : Nat) : Prop :=
  sport = cfg.quicPort ∨ dport = cfg.quicPort

instance (cfg : Config) (sport dport : Nat) : Decidable (is_quic cfg sport dport) := by
  unfold is_quic; infer_instance

/-- Table update (`update_state`): install `key ↦ idx`. -/
def updTbl (m : Nat → Option Nat) (k v : Nat) : Nat → Option Nat :=
  fun q => if q = k then some v else m q

/-- Table deletion (used by `remove_session`). -/
def delTbl (m : Nat → Option Nat) (k : Nat) : Nat → Option Nat :=
  fun q => if q = k then none else m q

/-- Pool update: store a session record at a pool index. -/
def updPool (m : Nat → Option LatencySession) (i : Nat) (s : LatencySession) :
    Nat → Option LatencySession :=
  fun q => if q = i then some s else m q

/-- `get_session_from_key`: table lookup followed by pool dereference. -/
def get_session_from_key (st : LatencyState) (kv : Nat) :
    Option (Nat × LatencySession) :=
  match st.tbl kv with
  | none => none
  | some i =>
    match st.pool i with
    | none => none
    | some s => some (i, s)

/-- Session creation as performed at node.c lines 319–344 (QUIC), 375–401
(PLUS) and 475–498 (TCP): allocate a pool slot, fill the record, install the
forward key and the reverse key, set `pkt_count = 1` and start the timer. -/
def create_session_install (st : LatencyState)
    (ptype kfwd krev sport srcip nd cid cat : Nat) :
    LatencyState × Nat × LatencySession :=
  let idx := st.next_index
  let s : LatencySession :=
    { p_type := ptype, key := kfwd, key_reverse := krev,
      init_src_port := sport, init_src_ip := srcip, new_dst_ip := nd,
      pkt_count := 1, state := LATENCY_STATE_ACTIVE, quic_id := cid,
      plus_cat := cat, est_updates := 0, timer := TIMEOUT }
  ({ tbl := updTbl (updTbl st.tbl kfwd idx) krev idx,
     pool := updPool st.pool idx s,
     next_index := idx + 1 }, idx, s)

/-- Modelled from the spec: `remove_session` (timer-wheel expiry path, spec
§4.1/§4.2, not under src/) removes both key aliases and frees the pool slot. -/
def remove_session (st : LatencyState) (idx : Nat) : LatencyState :=
  match st.pool idx with
  | none => st
  | some s =>
    { tbl := delTbl (delTbl st.tbl s.key) s.key_reverse,
      pool := fun q => if q = idx then none else st.pool q,
      next_index := st.next_index }

/-- Modelled from the spec: the three `update_*_rtt_estimate` calls
(estimators, latency.h, not under src/) mutate only the session's estimator
state; the claims here depend only on whether an estimator ran, so the
mutation is modelled as an invocation count on the session record. -/
def est_step (s : LatencySession) : LatencySession :=
  { s with est_updates := s.est_updates + 1 }

/-- Node.c line 516: `session->pkt_count ++` with 32-bit wrap. -/
def pkt_count_step (s : LatencySession) : LatencySession :=
  { s with pkt_count := (s.pkt_count + 1) % 4294967296 }

/-- Modelled from the spec: `ip_nat_translation` (latency.h, not under src/),
spec §4.6 step 10.  Forward direction (`src_ip = init_src_ip`): set
`dst_ip := new_dst_ip`.  Reverse direction (the packet is addressed to the
initiator): set `src_ip` and `dst_ip`, the restored source address being read
from the pre-rewrite header of the current packet (spec §9).  If neither
condition holds the translation fails and the packet is skipped.  The result
is the pair of optional (src_ip, dst_ip) header writes. -/
def ip_nat_translation (src dst init_src_ip new_dst_ip : Nat) :
    Option (Option Nat × Option Nat) :=
  if src = init_src_ip then some (none, some new_dst_ip)
  else if dst = init_src_ip then some (some src, some init_src_ip)
  else none

/-- One end-around-carry accumulation step for 16-bit one's-complement sums. -/
def ocAdd (a w : Nat) : Nat := (a + w) % 65536 + (a + w) / 65536

/-- Modelled from the spec: 16-bit one's-complement checksum over a word list
(the VPP checksum routines are outside this repository). -/
def csum16 (ws : List Nat) : Nat :=
  let s := ws.foldl ocAdd 0
  65535 - (s % 65536 + s / 65536) % 65536

/-- Read `n` big-endian 16-bit words starting at offset `p`. -/
def words16 (b : VBuf) (p : Nat) : Nat → List Nat
  | 0 => []
  | n + 1 => be16 b p :: words16 b (p + 2) n

/-- Modelled from the spec: `ip4_header_checksum` over the 20-byte IPv4
header at `c0`, excluding the checksum field itself. -/
def ip4_header_checksum (b : VBuf) (c0 : Nat) : Nat :=
  csum16 (words16 (wrBe16 b (c0 + 10) 0) c0 10)

/-- Modelled from the spec: `ip4_tcp_udp_compute_checksum` over the
pseudo-header and the transport segment of `segLen` bytes at `c0 + 20` (the
checksum field has already been zeroed by the caller, as in node.c). -/
def ip4_tcp_udp_compute_checksum (b : VBuf) (c0 segLen : Nat) : Nat :=
  csum16 ([be16 b (c0 + 12), be16 b (c0 + 14), be16 b (c0 + 16),
           be16 b (c0 + 18), rd8 b (c0 + 9), segLen] ++
          words16 b (c0 + 20) ((segLen + 1) / 2))

/-- QUIC header parse, node.c lines 203–299.  `Sum.inl` is a `goto
skip_packet` carrying the cursor state at the failing check; `Sum.inr` yields
(connection_id, packet_number, measurement byte, cursor state).  The long
header (lines 210–231) performs no length checks beyond the already
established 3-byte minimum; the short header reads the optional connection ID
only when `HAS_ID` is set *and* 8 bytes remain (line 245), and length-checks
the packet number and measurement reads. -/
def quic_meas (cid pn : Nat) (c : Cur) : Cur ⊕ (Nat × Nat × Nat × Cur) :=
  if c.b.len ≥ 1 then Sum.inr (cid, pn, rd8 c.b c.b.cursor, c) else Sum.inl c

/-- Short-header packet-number dispatch (node.c lines 253–290, the `switch`
on `*type & LATENCY_TYPE`), followed by the measurement-byte read. -/
def quic_short_pn (cid tcase : Nat) (c2 : Cur) : Cur ⊕ (Nat × Nat × Nat × Cur) :=
  if tcase = 1 then
    if c2.b.len ≥ 1 then quic_meas cid (rd8 c2.b c2.b.cursor) (c2.adv 1)
    else Sum.inl c2
  else if tcase = 2 then
    if c2.b.len ≥ 2 then quic_meas cid (be16 c2.b c2.b.cursor) (c2.adv 2)
    else Sum.inl c2
  else if tcase = 3 then
    if c2.b.len ≥ 4 then quic_meas cid (be32 c2.b c2.b.cursor) (c2.adv 4)
    else Sum.inl c2
  else Sum.inl c2

/-- Body of the QUIC header parse; see `quic_meas` for the result shape. -/
def quic_parse (c : Cur) : Cur ⊕ (Nat × Nat × Nat × Cur) :=
  let ty := rd8 c.b c.b.cursor
  if ty &&& 0x80 ≠ 0 then
    let c1 := c.adv 1
    let cid := be64 c1.b c1.b.cursor
    let c2 := c1.adv 8
    let pn := be32 c2.b c2.b.cursor
    let c3 := c2.adv 4
    let c4 := c3.adv 4
    quic_meas cid pn c4
  else
    let c1 := c.adv 1
    if ty &&& 0x40 ≠ 0 ∧ c1.b.len ≥ 8 then
      quic_short_pn (be64 c1.b c1.b.cursor) (ty &&& 0x1F) (c1.adv 8)
    else
      quic_short_pn 0 (ty &&& 0x1F) c1

/-- Modelled from the spec: the option-walking loop of
`tcp_options_parse_mod` (not under src/): walk the TCP options area, reject an
ill-formed length or an overrun of the area, and extract the timestamp option
(kind 8, length 10).  The fuel argument equals the remaining byte count at the
start and strictly dominates it, so fuel exhaustion is unreachable. -/
def tcp_opts_go : Nat → VBuf → Nat → Nat → Nat → Nat → Option (Nat × Nat)
  | _, _, _, 0, tsval, tsecr => some (tsval, tsecr)
  | 0, _, _, _ + 1, _, _ => none
  | fuel + 1, b, p, rem + 1, tsval, tsecr =>
    let kind := rd8 b p
    if kind = 0 then some (tsval, tsecr)
    else if kind = 1 then tcp_opts_go fuel b (p + 1) rem tsval tsecr
    else
      let l := rd8 b (p + 1)
      if l < 2 ∨ rem + 1 < l then none
      else if kind = 8 ∧ l = 10 then
        tcp_opts_go fuel b (p + l) (rem + 1 - l) (be32 b (p + 2)) (be32 b (p + 6))
      else tcp_opts_go fuel b (p + l) (rem + 1 - l) tsval tsecr

/-- Modelled from the spec: `tcp_options_parse_mod` (not under src/) parses
the options area implied by the TCP data-offset nibble at `tcpOff + 12`;
`none` is a parse failure (ill-formed length or overrun, spec §4.3). -/
def tcp_options_parse_mod (b : VBuf) (tcpOff : Nat) : Option (Nat × Nat) :=
  let doff := rd8 b (tcpOff + 12) / 16
  if doff < 5 then none
  else tcp_opts_go (doff * 4 - 20) b (tcpOff + 20) (doff * 4 - 20) 0 0

/-- Common tail of `latency_node_fn` (node.c lines 511–568): `pkt_count`
increment, NAT-like IP rewrite, checksum recomputation, timer re-arm for
ACTIVE sessions, cursor restore.  Note the increment happens before the
rewrite check, so a rewrite-mismatch skip keeps the incremented counter. -/
def node_tail (st : LatencyState) (idx : Nat) (s : LatencySession)
    (isUdp : Bool) (c0 srcip dstip : Nat) (c : Cur) (e : Effects) : PktOut :=
  let s1 := pkt_count_step s
  let st1 := { st with pool := updPool st.pool idx s1 }
  match ip_nat_translation srcip dstip s1.init_src_ip s1.new_dst_ip with
  | none => skipOut st1 c e
  | some (wsrc, wdst) =>
    let bs := match wsrc with
      | some v => wrBe32 c.b (c0 + 12) v
      | none => c.b
    let b1 := match wdst with
      | some v => wrBe32 bs (c0 + 16) v
      | none => bs
    let segLen := be16 b1 (c0 + 2) - 20
    let b2 :=
      if isUdp then
        let bz := wrBe16 b1 (c0 + 26) 0
        wrBe16 bz (c0 + 26) (ip4_tcp_udp_compute_checksum bz c0 segLen)
      else
        let bz := wrBe16 b1 (c0 + 36) 0
        wrBe16 bz (c0 + 36) (ip4_tcp_udp_compute_checksum bz c0 segLen)
    let b3 := wrBe16 b2 (c0 + 10) (ip4_header_checksum b2 c0)
    let e1 := { e with rewrote := true, checksummed := true }
    if s1.state = LATENCY_STATE_ACTIVE then
      let s2 := { s1 with timer := TIMEOUT }
      doneOut { st1 with pool := updPool st1.pool idx s2 } ⟨b3, c.total⟩
        { e1 with rearmed := true }
    else
      doneOut st1 ⟨b3, c.total⟩ e1

/-- Session lookup / first-packet creation, common shape of node.c lines
306–345 (QUIC), 364–402 (PLUS) and 463–499 (TCP): look the forward key up;
on a miss consult the destination map (`none` result means `goto
skip_packet`), otherwise create and install the session. -/
def session_resolve (st : LatencyState) (kv nd : Nat) (krev : Nat)
    (ptype sport srcip cid cat : Nat) :
    Option (LatencyState × Nat × LatencySession × Bool) :=
  match get_session_from_key st kv with
  | some (idx, s) => some (st, idx, s, false)
  | none =>
    if nd = 0 then none
    else
      let r := create_session_install st ptype kv krev sport srcip nd cid cat
      some (r.1, r.2.1, r.2.2, true)

/-- QUIC protocol path (node.c lines 199–350): header parse, session lookup /
creation, estimator run, then the common tail. -/
def quic_path (cfg : Config) (st : LatencyState)
    (c0 srcip dstip proto sport dport : Nat) (cB : Cur) : PktOut :=
  match quic_parse cB with
  | Sum.inl cf => skipOut st cf eff0
  | Sum.inr (cid, _pn, _meas, cC) =>
    let kv := make_key srcip dstip sport dport proto
    match session_resolve st kv (get_new_dst cfg dport)
        (make_key 0 (get_new_dst cfg dport) sport dport proto)
        P_QUIC sport srcip cid 0 with
    | none => skipOut st cC eff0
    | some (st1, idx, s, cr) =>
      let s1 := est_step s
      let st2 := { st1 with pool := updPool st1.pool idx s1 }
      node_tail st2 idx s1 true c0 srcip dstip cC
        { eff0 with matched := true, created := cr, estRan := true }

/-- PLUS protocol path (node.c lines 352–429): header length and magic
checks, session lookup / creation, estimator run, extension-header hop-count
handling, then the common tail. -/
def plus_path (cfg : Config) (st : LatencyState) (b0 : VBuf)
    (c0 srcip dstip proto sport dport : Nat) (cB : Cur) : PktOut :=
  if cB.b.len ≥ 20 then
    let cP := cB.adv 20
    let mf := rd8 b0 (c0 + 28)
    if mf &&& MAGIC_MASK = MAGIC then
      let cat := be64 b0 (c0 + 37)
      let kv := make_plus_key srcip dstip sport dport proto cat
      match session_resolve st kv (get_new_dst cfg dport)
          (make_plus_key 0 (get_new_dst cfg dport) sport dport proto cat)
          P_PLUS sport srcip 0 cat with
      | none => skipOut st cP eff0
      | some (st1, idx, s, cr) =>
        let s1 := est_step s
        let st2 := { st1 with pool := updPool st1.pool idx s1 }
        let extGo : Bool :=
          decide (mf &&& EXTENDED ≠ 0 ∧ cP.b.len ≥ 23 ∧
                  rd8 cP.b (c0 + 48) = 1 ∧ rd8 cP.b (c0 + 49) &&& 3 = 0)
        let bE :=
          if extGo then wr8 cP.b (c0 + 50) ((rd8 cP.b (c0 + 50) + 1) % 256)
          else cP.b
        node_tail st2 idx s1 true c0 srcip dstip ⟨bE, cP.total⟩
          { eff0 with
            matched := true, created := cr, estRan := true, hopInc := extGo }
    else skipOut st cP eff0
  else skipOut st cB eff0

/-- TCP protocol path (node.c lines 431–508): option parse, SYN+ACK check,
session lookup / creation, conditional estimator run, then the common tail. -/
def tcp_path (cfg : Config) (st : LatencyState) (b0 : VBuf)
    (c0 srcip dstip proto : Nat) (cA : Cur) : PktOut :=
  let cT := cA.adv 20
  match tcp_options_parse_mod b0 (c0 + 20) with
  | none => skipOut st cT eff0
  | some _ =>
    let fl := rd8 b0 (c0 + 33)
    let makeMeas : Bool := !(decide (fl &&& 0x02 ≠ 0 ∧ fl &&& 0x10 ≠ 0))
    let sport := be16 b0 (c0 + 20)
    let dport := be16 b0 (c0 + 22)
    let kv := make_key srcip dstip sport dport proto
    match session_resolve st kv (get_new_dst cfg dport)
        (make_key 0 (get_new_dst cfg dport) sport dport proto)
        P_TCP sport srcip 0 0 with
    | none => skipOut st cT eff0
    | some (st1, idx, s, cr) =>
      let s1 := if makeMeas then est_step s else s
      let st2 := { st1 with pool := updPool st1.pool idx s1 }
      node_tail st2 idx s1 false c0 srcip dstip cT
        { eff0 with matched := true, created := cr, estRan := makeMeas }

/-- Shallow embedding of the per-packet body of `latency_node_fn` (node.c
lines 166–568).  The timer-wheel advance between packets (`expire_timers`,
line 152) lives in the wheel component (see `remove_session`) and is not part
of the per-packet body. -/
def latency_pkt (cfg : Config) (st : LatencyState) (b0 : VBuf) : PktOut :=
  if b0.len ≥ 20 then
    let c0 := b0.cursor
    let cA : Cur := Cur.adv ⟨b0, 0⟩ 20
    if rd8 b0 c0 &&& 0xF0 = 0x60 then skipOut st cA eff0
    else
      let proto := rd8 b0 (c0 + 9)
      let srcip := be32 b0 (c0 + 12)
      let dstip := be32 b0 (c0 + 16)
      if proto = 17 ∧ cA.b.len ≥ 8 then
        let cB := cA.adv 8
        let sport := be16 b0 (c0 + 20)
        let dport := be16 b0 (c0 + 22)
        if is_quic cfg sport dport ∧ cB.b.len ≥ 3 then
          quic_path cfg st c0 srcip dstip proto sport dport cB
        else
          plus_path cfg st b0 c0 srcip dstip proto sport dport cB
      else if proto = 6 ∧ cA.b.len ≥ 20 then
        tcp_path cfg st b0 c0 srcip dstip proto cA
      else skipOut st cA eff0
  else ⟨st, b0, { eff0 with skipped := true }, 0⟩

/-! ### Cursor bookkeeping lemmas -/

/-- The cursor state reached from packet start `x`: the cursor sits exactly
`total_advance` bytes past the IPv4 header start. -/
def CurInv (x : Nat) (c : Cur) : Prop := c.b.cursor = x + c.total

lemma curInv_adv {x : Nat} {c : Cur} (h : CurInv x c) (n : Nat) :
    CurInv x (c.adv n) := by
  simp [CurInv, Cur.adv, VBuf.advance] at *
  omega

/-- The cursor component of a `quic_parse` result. -/
def quic_cur : Cur ⊕ (Nat × Nat × Nat × Cur) → Cur
  | Sum.inl c => c
  | Sum.inr (_, _, _, c) => c

lemma quic_meas_cur (cid pn : Nat) (c : Cur) :
    quic_cur (quic_meas cid pn c) = c := by
  unfold quic_meas
  split <;> rfl

lemma quic_short_pn_inv {x : Nat} {c2 : Cur} (cid tcase : Nat)
    (h : CurInv x c2) : CurInv x (quic_cur (quic_short_pn cid tcase c2)) := by
  unfold quic_short_pn
  split
  · split
    · rw [quic_meas_cur]; exact curInv_adv h 1
    · exact h
  split
  · split
    · rw [quic_meas_cur]; exact curInv_adv h 2
    · exact h
  split
  · split
    · rw [quic_meas_cur]; exact curInv_adv h 4
    · exact h
  · exact h

lemma quic_parse_inv {x : Nat} {c : Cur} (h : CurInv x c) :
    CurInv x (quic_cur (quic_parse c)) := by
  unfold quic_parse
  dsimp only
  split
  · rw [quic_meas_cur]
    exact curInv_adv (curInv_adv (curInv_adv (curInv_adv h 1) 8) 4) 4
  · split
    · exact quic_short_pn_inv _ _ (curInv_adv (curInv_adv h 1) 8)
    · exact quic_short_pn_inv _ _ (curInv_adv h 1)

lemma skipOut_cursor (st : LatencyState) (c : Cur) (e : Effects) :
    (skipOut st c e).buf.cursor = c.b.cursor - c.total := rfl

lemma doneOut_cursor (st : LatencyState) (c : Cur) (e : Effects) :
    (doneOut st c e).buf.cursor = c.b.cursor - c.total := rfl

lemma wr8_cursor (b : VBuf) (p v : Nat) : (wr8 b p v).cursor = b.cursor := rfl

lemma wrBe16_cursor (b : VBuf) (p v : Nat) : (wrBe16 b p v).cursor = b.cursor := rfl

lemma wrBe32_cursor (b : VBuf) (p v : Nat) : (wrBe32 b p v).cursor = b.cursor := rfl

lemma node_tail_cursor (st : LatencyState) (idx : Nat) (s : LatencySession)
    (isUdp : Bool) (c0 srcip dstip : Nat) (c : Cur) (e : Effects) :
    (node_tail st idx s isUdp c0 srcip dstip c e).buf.cursor =
      c.b.cursor - c.total := by
  unfold node_tail
  dsimp only
  cases htr : ip_nat_translation srcip dstip (pkt_count_step s).init_src_ip
      (pkt_count_step s).new_dst_ip with
  | none => rfl
  | some wp =>
    obtain ⟨wsrc, wdst⟩ := wp
    cases wsrc <;> cases wdst <;> cases isUdp <;>
      dsimp only <;> split <;>
      simp [doneOut, VBuf.retreat, wrBe16_cursor, wrBe32_cursor]

lemma quic_path_cursor (cfg : Config) (st : LatencyState)
    (c0 srcip dstip proto sport dport : Nat) {x : Nat} {cB : Cur}
    (h : CurInv x cB) :
    (quic_path cfg st c0 srcip dstip proto sport dport cB).buf.cursor = x := by
  unfold quic_path
  dsimp only
  have hin := quic_parse_inv h
  split
  · rename_i cf heq
    rw [heq] at hin
    rw [CurInv] at hin
    simp [skipOut, VBuf.retreat, quic_cur] at *
    omega
  · rename_i cid pn meas cC heq
    rw [heq] at hin
    rw [CurInv] at hin
    dsimp only [quic_cur] at hin
    split
    · simp [skipOut, VBuf.retreat, hin]
    · rw [node_tail_cursor]
      omega

lemma plus_path_cursor (cfg : Config) (st : LatencyState) (b0 : VBuf)
    (c0 srcip dstip proto sport dport : Nat) {x : Nat} {cB : Cur}
    (h : CurInv x cB) :
    (plus_path cfg st b0 c0 srcip dstip proto sport dport cB).buf.cursor = x := by
  have hP : CurInv x (cB.adv 20) := curInv_adv h 20
  rw [CurInv] at h hP
  unfold plus_path
  dsimp only
  split
  · split
    · split
      · simp [skipOut, VBuf.retreat, Cur.adv, VBuf.advance] at *
        omega
      · rw [node_tail_cursor]
        dsimp only
        split <;> simp [wr8, Cur.adv, VBuf.advance] at * <;> omega
    · simp [skipOut, VBuf.retreat, Cur.adv, VBuf.advance] at *
      omega
  · simp [skipOut, VBuf.retreat, hP] at *
    omega

lemma tcp_path_cursor (cfg : Config) (st : LatencyState) (b0 : VBuf)
    (c0 srcip dstip proto : Nat) {x : Nat} {cA : Cur} (h : CurInv x cA) :
    (tcp_path cfg st b0 c0 srcip dstip proto cA).buf.cursor = x := by
  have hT : CurInv x (cA.adv 20) := curInv_adv h 20
  rw [CurInv] at hT
  unfold tcp_path
  dsimp only
  split
  · simp [skipOut, VBuf.retreat, hT]
  · split
    · simp [skipOut, VBuf.retreat, hT]
    · rw [node_tail_cursor]
      omega

lemma latency_pkt_cursor (cfg : Config) (st : LatencyState) (b0 : VBuf) :
    (latency_pkt cfg st b0).buf.cursor = b0.cursor := by
  have hA : CurInv b0.cursor (Cur.adv ⟨b0, 0⟩ 20) := by
    simp [CurInv, Cur.adv, VBuf.advance]
  have hB : CurInv b0.cursor (Cur.adv (Cur.adv ⟨b0, 0⟩ 20) 8) :=
    curInv_adv hA 8
  unfold latency_pkt
  dsimp only
  split
  · split
    · rw [CurInv] at hA
      simp [skipOut, VBuf.retreat, hA]
    · split
      · split
        · exact quic_path_cursor _ _ _ _ _ _ _ _ hB
        · exact plus_path_cursor _ _ _ _ _ _ _ _ _ hB
      · split
        · exact tcp_path_cursor _ _ _ _ _ _ _ hA
        · rw [CurInv] at hA
          simp [skipOut, VBuf.retreat, hA]
  · rfl

/-- C2: for every packet processed by the node — regardless of protocol,
parse outcome, or error path taken — the buffer's read cursor position when
the packet is handed to the next stage equals its position when the node
received it (the single `skip_packet` exit restores the cursor by
`total_advance` on every path, node.c lines 566–568). -/
theorem C2_cursor_round_trip (cfg : Config) (st : LatencyState) (b0 : VBuf) :
    (latency_pkt cfg st b0).buf.cursor = b0.cursor :=
  latency_pkt_cursor cfg st b0

/-! ### Forwarding and state-preservation lemmas -/

lemma quic_short_pn_data (cid tcase : Nat) (c2 : Cur) :
    (quic_cur (quic_short_pn cid tcase c2)).b.data = c2.b.data := by
  unfold quic_short_pn
  split
  · split
    · rw [quic_meas_cur]
      rfl
    · rfl
  split
  · split
    · rw [quic_meas_cur]
      rfl
    · rfl
  split
  · split
    · rw [quic_meas_cur]
      rfl
    · rfl
  · rfl

lemma quic_parse_data (c : Cur) :
    (quic_cur (quic_parse c)).b.data = c.b.data := by
  unfold quic_parse
  dsimp only
  split
  · rw [quic_meas_cur]
    rfl
  · split
    · rw [quic_short_pn_data]
      rfl
    · rw [quic_short_pn_data]
      rfl

lemma node_tail_basic (st : LatencyState) (idx : Nat) (s : LatencySession)
    (isUdp : Bool) (c0 srcip dstip : Nat) (c : Cur) (e : Effects) :
    (node_tail st idx s isUdp c0 srcip dstip c e).next = 0 ∧
      (node_tail st idx s isUdp c0 srcip dstip c e).eff.matched = e.matched := by
  unfold node_tail
  dsimp only
  cases htr : ip_nat_translation srcip dstip (pkt_count_step s).init_src_ip
      (pkt_count_step s).new_dst_ip with
  | none => exact ⟨rfl, rfl⟩
  | some wp =>
    obtain ⟨ws, wd⟩ := wp
    dsimp only
    split <;> exact ⟨rfl, rfl⟩

lemma quic_path_basic (cfg : Config) (st : LatencyState)
    (c0 srcip dstip proto sport dport : Nat) (cB : Cur) (d : List Nat)
    (hd : cB.b.data = d) :
    (quic_path cfg st c0 srcip dstip proto sport dport cB).next = 0 ∧
      ((quic_path cfg st c0 srcip dstip proto sport dport cB).eff.matched = false →
        (quic_path cfg st c0 srcip dstip proto sport dport cB).st = st ∧
        (quic_path cfg st c0 srcip dstip proto sport dport cB).buf.data = d) := by
  have hdata := quic_parse_data cB
  unfold quic_path
  dsimp only
  split
  · rename_i cf heq
    rw [heq] at hdata
    dsimp only [quic_cur] at hdata
    refine ⟨rfl, fun _ => ⟨rfl, ?_⟩⟩
    simp only [skipOut, VBuf.retreat]
    rw [hdata, hd]
  · rename_i cid pn meas cC heq
    rw [heq] at hdata
    dsimp only [quic_cur] at hdata
    split
    · refine ⟨rfl, fun _ => ⟨rfl, ?_⟩⟩
      simp only [skipOut, VBuf.retreat]
      rw [hdata, hd]
    · rename_i st1 idx s cr heq2
      refine ⟨(node_tail_basic _ _ _ _ _ _ _ _ _).1, fun hm => ?_⟩
      rw [(node_tail_basic _ _ _ _ _ _ _ _ _).2] at hm
      simp at hm

lemma plus_path_basic (cfg : Config) (st : LatencyState) (b0 : VBuf)
    (c0 srcip dstip proto sport dport : Nat) (cB : Cur) (d : List Nat)
    (hd : cB.b.data = d) :
    (plus_path cfg st b0 c0 srcip dstip proto sport dport cB).next = 0 ∧
      ((plus_path cfg st b0 c0 srcip dstip proto sport dport cB).eff.matched = false →
        (plus_path cfg st b0 c0 srcip dstip proto sport dport cB).st = st ∧
        (plus_path cfg st b0 c0 srcip dstip proto sport dport cB).buf.data = d) := by
  unfold plus_path
  dsimp only
  split
  · split
    · split
      · refine ⟨rfl, fun _ => ⟨rfl, ?_⟩⟩
        simp only [skipOut, VBuf.retreat, Cur.adv, VBuf.advance]
        rw [← hd]
      · refine ⟨(node_tail_basic _ _ _ _ _ _ _ _ _).1, fun hm => ?_⟩
        rw [(node_tail_basic _ _ _ _ _ _ _ _ _).2] at hm
        simp at hm
    · refine ⟨rfl, fun _ => ⟨rfl, ?_⟩⟩
      simp only [skipOut, VBuf.retreat, Cur.adv, VBuf.advance]
      rw [← hd]
  · refine ⟨rfl, fun _ => ⟨rfl, ?_⟩⟩
    simp only [skipOut, VBuf.retreat]
    rw [← hd]

lemma tcp_path_basic (cfg : Config) (st : LatencyState) (b0 : VBuf)
    (c0 srcip dstip proto : Nat) (cA : Cur) (d : List Nat)
    (hd : cA.b.data = d) :
    (tcp_path cfg st b0 c0 srcip dstip proto cA).next = 0 ∧
      ((tcp_path cfg st b0 c0 srcip dstip proto cA).eff.matched = false →
        (tcp_path cfg st b0 c0 srcip dstip proto cA).st = st ∧
        (tcp_path cfg st b0 c0 srcip dstip proto cA).buf.data = d) := by
  unfold tcp_path
  dsimp only
  split
  · refine ⟨rfl, fun _ => ⟨rfl, ?_⟩⟩
    simp only [skipOut, VBuf.retreat, Cur.adv, VBuf.advance]
    rw [← hd]
  · split
    · refine ⟨rfl, fun _ => ⟨rfl, ?_⟩⟩
      simp only [skipOut, VBuf.retreat, Cur.adv, VBuf.advance]
      rw [← hd]
    · refine ⟨(node_tail_basic _ _ _ _ _ _ _ _ _).1, fun hm => ?_⟩
      rw [(node_tail_basic _ _ _ _ _ _ _ _ _).2] at hm
      simp at hm

lemma latency_pkt_basic (cfg : Config) (st : LatencyState) (b0 : VBuf) :
    (latency_pkt cfg st b0).next = 0 ∧
      ((latency_pkt cfg st b0).eff.matched = false →
        (latency_pkt cfg st b0).st = st ∧
        (latency_pkt cfg st b0).buf.data = b0.data) := by
  unfold latency_pkt
  dsimp only
  split
  · split
    · refine ⟨rfl, fun _ => ⟨rfl, ?_⟩⟩
      simp only [skipOut, VBuf.retreat, Cur.adv, VBuf.advance]
    · split
      · split
        · exact quic_path_basic _ _ _ _ _ _ _ _ _ _ rfl
        · exact plus_path_basic _ _ _ _ _ _ _ _ _ _ _ rfl
      · split
        · exact tcp_path_basic _ _ _ _ _ _ _ _ _ rfl
        · refine ⟨rfl, fun _ => ⟨rfl, ?_⟩⟩
          simp only [skipOut, VBuf.retreat, Cur.adv, VBuf.advance]
  · exact ⟨rfl, fun _ => ⟨rfl, rfl⟩⟩

/-! ### Concrete fixtures for the closed-instance runs -/

/-- Example configuration: QUIC port 4433; destination map sending port 80 to
backend 192.168.1.10 (= 3232235786). -/
def exCfg : Config := ⟨4433, fun p => if p = 80 then 3232235786 else 0⟩

/-- The empty pipeline state. -/
def exEmpty : LatencyState := ⟨fun _ => none, fun _ => none, 0⟩

/-- A 40-byte IPv4/TCP SYN packet, src 10.0.0.1:5000 → dst 10.0.0.2:80,
data offset 5 (no options). -/
def exPktTcp : List Nat :=
  [0x45, 0, 0, 40, 0, 0, 0, 0, 64, 6, 0, 0,
   10, 0, 0, 1, 10, 0, 0, 2,
   19, 136, 0, 80, 0, 0, 0, 1, 0, 0, 0, 0,
   0x50, 0x02, 0x20, 0, 0, 0, 0, 0]

/-- A state holding one TCP session under `exPktTcp`'s forward flow key whose
frozen init addresses (init_src_ip = 99, new_dst_ip = 77) match neither the
forward nor the reverse rewrite condition for that packet, and whose
`pkt_count` is 7. -/
def exStMis : LatencyState :=
  ⟨fun k => if k = make_key 167772161 167772162 5000 80 6 then some 0 else none,
   fun i => if i = 0 then some ⟨P_TCP, 0, 0, 5000, 99, 77, 7, 0, 0, 0, 0, 300⟩ else none,
   1⟩

/-! ### C1: error forwarding policy -/

/-- C1 (amended): every packet — the erroring ones included — is forwarded to
the single next node (`next = 0`, no drops) with its cursor restored, and a
packet skipped before any session was matched (insufficient length,
unrecognized encoding, unknown destination port, bad TCP options) leaves both
the session state and the packet bytes untouched.  A rewrite-mismatch error,
by contrast, strikes after the `pkt_count ++` of node.c line 516, so its
session-state increment persists (see the counterexample). -/
theorem C1_error_forwarding (cfg : Config) (st : LatencyState) (b0 : VBuf) :
    (latency_pkt cfg st b0).next = 0 ∧
    (latency_pkt cfg st b0).buf.cursor = b0.cursor ∧
    ((latency_pkt cfg st b0).eff.matched = false →
      (latency_pkt cfg st b0).st = st ∧
      (latency_pkt cfg st b0).buf.data = b0.data) :=
  ⟨(latency_pkt_basic cfg st b0).1, latency_pkt_cursor cfg st b0,
   (latency_pkt_basic cfg st b0).2⟩

/-- C1 counterexample: on `exPktTcp` against `exStMis` the node takes the
rewrite-mismatch error path (the packet is skipped), yet the session record in
the pool changed — its pkt_count went from 7 to 8 — refuting the claim that
every error leaves all session state untouched by the erroring packet. -/
theorem C1_counterexample :
    (latency_pkt exCfg exStMis ⟨exPktTcp, 0, 40⟩).eff.skipped = true ∧
    (latency_pkt exCfg exStMis ⟨exPktTcp, 0, 40⟩).st.pool 0 ≠ exStMis.pool 0 ∧
    ((latency_pkt exCfg exStMis ⟨exPktTcp, 0, 40⟩).st.pool 0).map
      LatencySession.pkt_count = some 8 := by
  refine ⟨?_, ?_, ?_⟩ <;> decide

/-- C1 witness: a 4-byte packet errors out with `matched = false`; the
theorem applied at it yields untouched state and bytes. -/
theorem C1_witness :
    (latency_pkt exCfg exEmpty ⟨[0, 0, 0, 0], 0, 4⟩).st = exEmpty ∧
    (latency_pkt exCfg exEmpty ⟨[0, 0, 0, 0], 0, 4⟩).buf.data = [0, 0, 0, 0] :=
  (C1_error_forwarding exCfg exEmpty ⟨[0, 0, 0, 0], 0, 4⟩).2.2 (by decide)

/-! ### C3: pkt_count accounting -/

lemma iterate_pkt_count (N : Nat) (s : LatencySession) :
    (pkt_count_step^[N] s).pkt_count =
      if N = 0 then s.pkt_count else (s.pkt_count + N) % 4294967296 := by
  induction N with
  | zero => rfl
  | succ n ih =>
    rw [Function.iterate_succ_apply']
    dsimp only [pkt_count_step]
    rw [ih, if_neg (Nat.succ_ne_zero n)]
    rcases Nat.eq_zero_or_pos n with h0 | hpos
    · subst h0
      simp
    · rw [if_neg (Nat.pos_iff_ne_zero.mp hpos)]
      omega

lemma node_tail_pkt_count (st : LatencyState) (idx : Nat) (s : LatencySession)
    (isUdp : Bool) (c0 srcip dstip : Nat) (c : Cur) (e : Effects) :
    ((node_tail st idx s isUdp c0 srcip dstip c e).st.pool idx).map
      LatencySession.pkt_count = some ((s.pkt_count + 1) % 4294967296) := by
  unfold node_tail
  dsimp only
  cases htr : ip_nat_translation srcip dstip (pkt_count_step s).init_src_ip
      (pkt_count_step s).new_dst_ip with
  | none => simp [skipOut, updPool, pkt_count_step]
  | some wp =>
    obtain ⟨ws, wd⟩ := wp
    dsimp only
    split <;> simp [doneOut, updPool, pkt_count_step]

/-- C3 (amended): a session's `pkt_count` is initialized to 1 at creation
(node.c lines 342/399/496) and incremented once per packet reaching the
increment step of the tail (line 516), so after N such packets it equals
N + 1 (mod 2^32), not N.  The first conjunct follows the counter across N
increment steps from a freshly created session; the second shows one pass
through the tail performs exactly one increment on the pooled record. -/
theorem C3_pkt_count_after_n (st : LatencyState)
    (ptype kf kr sp si nd ci ca N : Nat) (idx : Nat) (s : LatencySession)
    (isUdp : Bool) (c0 srcip dstip : Nat) (c : Cur) (e : Effects) :
    (pkt_count_step^[N]
        (create_session_install st ptype kf kr sp si nd ci ca).2.2).pkt_count =
      (1 + N) % 4294967296 ∧
    ((node_tail st idx s isUdp c0 srcip dstip c e).st.pool idx).map
      LatencySession.pkt_count = some ((s.pkt_count + 1) % 4294967296) := by
  constructor
  · rw [iterate_pkt_count]
    rcases Nat.eq_zero_or_pos N with h0 | hpos
    · subst h0
      simp [create_session_install]
    · rw [if_neg (Nat.pos_iff_ne_zero.mp hpos)]
      simp [create_session_install]
  · exact node_tail_pkt_count st idx s isUdp c0 srcip dstip c e

/-- C3 counterexample: a single TCP first packet runs the full pipeline once;
after this one packet reached the increment step the session's `pkt_count` is
2, not 1 — creation already set it to 1 and the tail incremented it. -/
theorem C3_counterexample :
    ((latency_pkt exCfg exEmpty ⟨exPktTcp, 0, 40⟩).st.pool 0).map
        LatencySession.pkt_count = some 2 ∧
    ((latency_pkt exCfg exEmpty ⟨exPktTcp, 0, 40⟩).st.pool 0).map
        LatencySession.pkt_count ≠ some 1 := by
  refine ⟨?_, ?_⟩ <;> decide

/-! ### C6: dual-key aliasing -/

lemma create_remove_keys (st : LatencyState)
    (ptype kf kr sp si nd ci ca : Nat) :
    (create_session_install st ptype kf kr sp si nd ci ca).1.tbl kf =
        some st.next_index ∧
    (create_session_install st ptype kf kr sp si nd ci ca).1.tbl kr =
        some st.next_index ∧
    (remove_session (create_session_install st ptype kf kr sp si nd ci ca).1
        st.next_index).tbl kf = none ∧
    (remove_session (create_session_install st ptype kf kr sp si nd ci ca).1
        st.next_index).tbl kr = none := by
  by_cases h : kf = kr <;>
    simp [create_session_install, remove_session, updTbl, delTbl, updPool, h]

/-- C6: whenever node.c creates a session it installs two keys mapping to the
same pool index — the forward key built by `make_key`/`make_plus_key` from
the packet's (src_ip, dst_ip, src_port, dst_port, protocol) (with the CAT
folded in for PLUS), and the reverse key built with src_ip = 0 and dst_ip =
`new_dst_ip` (node.c lines 324–340, 380–397, 480–494); both resolve to that
index while the session exists, and after `remove_session` neither
resolves. -/
theorem C6_dual_key_aliasing (st : LatencyState)
    (ptype src dst sport dport proto cat nd cid : Nat) :
    ((create_session_install st ptype (make_key src dst sport dport proto)
          (make_key 0 nd sport dport proto) sport src nd cid 0).1.tbl
        (make_key src dst sport dport proto) = some st.next_index ∧
      (create_session_install st ptype (make_key src dst sport dport proto)
          (make_key 0 nd sport dport proto) sport src nd cid 0).1.tbl
        (make_key 0 nd sport dport proto) = some st.next_index ∧
      (remove_session
          (create_session_install st ptype (make_key src dst sport dport proto)
            (make_key 0 nd sport dport proto) sport src nd cid 0).1
          st.next_index).tbl (make_key src dst sport dport proto) = none ∧
      (remove_session
          (create_session_install st ptype (make_key src dst sport dport proto)
            (make_key 0 nd sport dport proto) sport src nd cid 0).1
          st.next_index).tbl (make_key 0 nd sport dport proto) = none) ∧
    ((create_session_install st ptype
          (make_plus_key src dst sport dport proto cat)
          (make_plus_key 0 nd sport dport proto cat) sport src nd 0 cat).1.tbl
        (make_plus_key src dst sport dport proto cat) = some st.next_index ∧
      (create_session_install st ptype
          (make_plus_key src dst sport dport proto cat)
          (make_plus_key 0 nd sport dport proto cat) sport src nd 0 cat).1.tbl
        (make_plus_key 0 nd sport dport proto cat) = some st.next_index ∧
      (remove_session
          (create_session_install st ptype
            (make_plus_key src dst sport dport proto cat)
            (make_plus_key 0 nd sport dport proto cat) sport src nd 0 cat).1
          st.next_index).tbl (make_plus_key src dst sport dport proto cat) =
        none ∧
      (remove_session
          (create_session_install st ptype
            (make_plus_key src dst sport dport proto cat)
            (make_plus_key 0 nd sport dport proto cat) sport src nd 0 cat).1
          st.next_index).tbl (make_plus_key 0 nd sport dport proto cat) =
        none) :=
  ⟨create_remove_keys st ptype (make_key src dst sport dport proto)
      (make_key 0 nd sport dport proto) sport src nd cid 0,
   create_remove_keys st ptype (make_plus_key src dst sport dport proto cat)
      (make_plus_key 0 nd sport dport proto cat) sport src nd 0 cat⟩

/-! ### C5: PLUS extension hop increment -/

/-- An IPv4/UDP/PLUS packet: src 10.0.0.1:5000 → dst 10.0.0.2:80, PLUS magic
with the EXTENDED flag (0xD1), PSN 1, PSE 0, CAT 0x0909…09, followed by the
3-byte extension header PCF_type = 1, PCF_len_and_II = 0, PCF_hop_c = 3 and
`extra` trailing bytes. -/
def exPktPlus (extra : List Nat) : List Nat :=
  [0x45, 0, 0, 51, 0, 0, 0, 0, 64, 17, 0, 0,
   10, 0, 0, 1, 10, 0, 0, 2,
   19, 136, 0, 80, 0, 23, 0, 0,
   0xD1, 0, 0, 0, 1, 0, 0, 0, 0, 9, 9, 9, 9, 9, 9, 9, 9, 0, 0, 0,
   1, 0, 3] ++ extra

/-- C5 evaluation at the failing input: with exactly 3 bytes of extension
beyond the 20-byte PLUS header (51-byte packet) the hop-count byte is NOT
incremented — node.c line 416 requires `current_length >= SIZE_PLUS +
SIZE_PLUS_EXT_HELLO` (= 23) *after* already advancing past the PLUS header,
so it demands 23 trailing bytes instead of the 3 the extension occupies.
With 23 trailing bytes (71-byte packet) the same packet is incremented,
confirming the off-by-SIZE_PLUS length check. -/
theorem C5_hop_increment_length_bug :
    rd8 (latency_pkt exCfg exEmpty ⟨exPktPlus [], 0, 51⟩).buf 50 = 3 ∧
    (latency_pkt exCfg exEmpty ⟨exPktPlus [], 0, 51⟩).eff.hopInc = false ∧
    rd8 (latency_pkt exCfg exEmpty
        ⟨exPktPlus (List.replicate 20 0), 0, 71⟩).buf 50 = 4 ∧
    (latency_pkt exCfg exEmpty
        ⟨exPktPlus (List.replicate 20 0), 0, 71⟩).eff.hopInc = true := by
  refine ⟨?_, ?_, ?_, ?_⟩ <;> decide

/-! ### C7: TCP option parse failure -/

/-- C7 (amended): a TCP packet whose option parse fails is skipped entirely —
`goto skip_packet` at node.c line 447 fires before the session lookup — so no
session is looked up or touched, no estimator runs, and no rewrite or
checksum recomputation happens even when a session exists for the flow key;
the packet is forwarded unchanged with its cursor restored. -/
theorem C7_tcp_bad_options_skip_all (cfg : Config) (st : LatencyState)
    (b0 : VBuf) (hl : b0.len ≥ 20)
    (hv : ¬rd8 b0 b0.cursor &&& 0xF0 = 0x60)
    (hp : rd8 b0 (b0.cursor + 9) = 6)
    (hl2 : (Cur.adv ⟨b0, 0⟩ 20).b.len ≥ 20)
    (hparse : tcp_options_parse_mod b0 (b0.cursor + 20) = none) :
    (latency_pkt cfg st b0).st = st ∧
    (latency_pkt cfg st b0).buf.data = b0.data ∧
    (latency_pkt cfg st b0).buf.cursor = b0.cursor ∧
    (latency_pkt cfg st b0).eff.skipped = true ∧
    (latency_pkt cfg st b0).eff.matched = false ∧
    (latency_pkt cfg st b0).eff.rewrote = false ∧
    (latency_pkt cfg st b0).eff.estRan = false := by
  unfold latency_pkt
  dsimp only
  rw [if_pos hl, if_neg hv, hp]
  rw [if_neg (by simp), if_pos ⟨rfl, hl2⟩]
  unfold tcp_path
  dsimp only
  rw [hparse]
  refine ⟨rfl, ?_, ?_, rfl, rfl, rfl, rfl⟩
  · simp only [skipOut, VBuf.retreat, Cur.adv, VBuf.advance]
  · simp only [skipOut, VBuf.retreat, Cur.adv, VBuf.advance]
    omega

/-- A 44-byte IPv4/TCP packet with data offset 6 and an ill-formed option
(kind 2, length 0), src 10.0.0.1:5000 → dst 10.0.0.2:80. -/
def exPktTcpBad : List Nat :=
  [0x45, 0, 0, 44, 0, 0, 0, 0, 64, 6, 0, 0,
   10, 0, 0, 1, 10, 0, 0, 2,
   19, 136, 0, 80, 0, 0, 0, 1, 0, 0, 0, 0,
   0x60, 0x10, 0x20, 0, 0, 0, 0, 0,
   2, 0, 0, 0]

/-- A state holding an established TCP session (pkt_count 7) for
`exPktTcpBad`'s forward flow key, with matching init addresses. -/
def exStBad : LatencyState :=
  ⟨fun k => if k = make_key 167772161 167772162 5000 80 6 then some 0 else none,
   fun i => if i = 0 then
     some ⟨P_TCP, 0, 0, 5000, 167772161, 3232235786, 7, 0, 0, 0, 0, 300⟩
   else none,
   1⟩

/-- C7 counterexample: a session exists for the bad-options packet's flow
key, yet the packet does not traverse the rewrite — the bytes come out
unchanged, no rewrite happened, and the session was not touched — refuting
the claim that such packets still traverse rewrite and checksum
recomputation. -/
theorem C7_counterexample :
    (exStBad.tbl (make_key 167772161 167772162 5000 80 6)).isSome = true ∧
    (latency_pkt exCfg exStBad ⟨exPktTcpBad, 0, 44⟩).eff.rewrote = false ∧
    (latency_pkt exCfg exStBad ⟨exPktTcpBad, 0, 44⟩).eff.checksummed = false ∧
    (latency_pkt exCfg exStBad ⟨exPktTcpBad, 0, 44⟩).buf.data = exPktTcpBad ∧
    (latency_pkt exCfg exStBad ⟨exPktTcpBad, 0, 44⟩).st.pool 0 =
      exStBad.pool 0 := by
  refine ⟨?_, ?_, ?_, ?_, ?_⟩ <;> decide

/-- C7 witness: the amended theorem applied at the concrete bad-options
packet against the session-holding state. -/
theorem C7_witness :
    (latency_pkt exCfg exStBad ⟨exPktTcpBad, 0, 44⟩).st = exStBad ∧
    (latency_pkt exCfg exStBad ⟨exPktTcpBad, 0, 44⟩).buf.data = exPktTcpBad :=
  ⟨(C7_tcp_bad_options_skip_all exCfg exStBad ⟨exPktTcpBad, 0, 44⟩
      (by decide) (by decide) (by decide) (by decide) (by decide)).1,
   (C7_tcp_bad_options_skip_all exCfg exStBad ⟨exPktTcpBad, 0, 44⟩
      (by decide) (by decide) (by decide) (by decide) (by decide)).2.1⟩

/-! ### C8: IP version filtering -/

/-- C8 (amended): only packets whose version nibble is 6 are filtered (node.c
line 188 tests `(ip_version_and_header_length & 0xF0) == 0x60`); such packets
are skipped without any state change and forwarded unchanged.  Other non-4
version values are not rejected (see the counterexample). -/
theorem C8_version6_skip (cfg : Config) (st : LatencyState) (b0 : VBuf)
    (h : rd8 b0 b0.cursor &&& 0xF0 = 0x60) :
    (latency_pkt cfg st b0).st = st ∧
    (latency_pkt cfg st b0).buf.data = b0.data ∧
    (latency_pkt cfg st b0).buf.cursor = b0.cursor ∧
    (latency_pkt cfg st b0).eff.matched = false ∧
    (latency_pkt cfg st b0).eff.skipped = true := by
  unfold latency_pkt
  dsimp only
  by_cases hl : b0.len ≥ 20
  · rw [if_pos hl, if_pos h]
    refine ⟨rfl, ?_, ?_, rfl, rfl⟩
    · simp only [skipOut, VBuf.retreat, Cur.adv, VBuf.advance]
    · simp only [skipOut, VBuf.retreat, Cur.adv, VBuf.advance]
      omega
  · rw [if_neg hl]
    exact ⟨rfl, rfl, rfl, rfl, rfl⟩

/-- `exPktTcp` with the IP version nibble set to 5 instead of 4. -/
def exPktV5 : List Nat :=
  [0x55, 0, 0, 40, 0, 0, 0, 0, 64, 6, 0, 0,
   10, 0, 0, 1, 10, 0, 0, 2,
   19, 136, 0, 80, 0, 0, 0, 1, 0, 0, 0, 0,
   0x50, 0x02, 0x20, 0, 0, 0, 0, 0]

/-- C8 counterexample: a packet whose IP version nibble is 5 (not 4) is not
rejected — it runs the full TCP path and creates a session, changing the
state — refuting the claim that every non-4 version is skipped without state
change. -/
theorem C8_counterexample :
    rd8 ⟨exPktV5, 0, 40⟩ 0 / 16 = 5 ∧
    (latency_pkt exCfg exEmpty ⟨exPktV5, 0, 40⟩).eff.matched = true ∧
    ((latency_pkt exCfg exEmpty ⟨exPktV5, 0, 40⟩).st.pool 0).isSome = true := by
  refine ⟨?_, ?_, ?_⟩ <;> decide

/-- `exPktTcp` with the IP version nibble set to 6. -/
def exPktV6 : List Nat :=
  [0x65, 0, 0, 40, 0, 0, 0, 0, 64, 6, 0, 0,
   10, 0, 0, 1, 10, 0, 0, 2,
   19, 136, 0, 80, 0, 0, 0, 1, 0, 0, 0, 0,
   0x50, 0x02, 0x20, 0, 0, 0, 0, 0]

/-- C8 witness: the amended theorem applied at a concrete version-6 packet. -/
theorem C8_witness :
    (latency_pkt exCfg exEmpty ⟨exPktV6, 0, 40⟩).st = exEmpty ∧
    (latency_pkt exCfg exEmpty ⟨exPktV6, 0, 40⟩).buf.data = exPktV6 :=
  ⟨(C8_version6_skip exCfg exEmpty ⟨exPktV6, 0, 40⟩ (by decide)).1,
   (C8_version6_skip exCfg exEmpty ⟨exPktV6, 0, 40⟩ (by decide)).2.1⟩

/-! ### Byte-access lemmas for the symbolic first-packet runs -/

lemma getD_set_ne (l : List Nat) :
    ∀ (p q v : Nat), p ≠ q → (l.set p v).getD q 0 = l.getD q 0 := by
  induction l with
  | nil => intro p q v h; rfl
  | cons a t ih =>
    intro p q v h
    cases p with
    | zero =>
      cases q with
      | zero => exact absurd rfl h
      | succ q => simp [List.getD_cons_succ]
    | succ p =>
      cases q with
      | zero => simp [List.getD_cons_zero]
      | succ q =>
        simp only [List.set_cons_succ, List.getD_cons_succ]
        exact ih p q v (fun he => h (by rw [he]))

lemma getD_set_self (l : List Nat) :
    ∀ (p v : Nat), p < l.length → (l.set p v).getD p 0 = v := by
  induction l with
  | nil => intro p v h; simp at h
  | cons a t ih =>
    intro p v h
    cases p with
    | zero => rfl
    | succ p =>
      simp only [List.set_cons_succ, List.getD_cons_succ]
      exact ih p v (by simpa using h)

lemma be32_wr8_other (b : VBuf) (q w p : Nat)
    (h1 : q ≠ p) (h2 : q ≠ p + 1) (h3 : q ≠ p + 2) (h4 : q ≠ p + 3) :
    be32 (wr8 b q w) p = be32 b p := by
  unfold be32 rd8 wr8
  dsimp only
  rw [getD_set_ne _ _ _ _ h1, getD_set_ne _ _ _ _ h2,
      getD_set_ne _ _ _ _ h3, getD_set_ne _ _ _ _ h4]

lemma be32_wrBe16_other (b : VBuf) (q w p : Nat)
    (h1 : q ≠ p) (h2 : q ≠ p + 1) (h3 : q ≠ p + 2) (h4 : q ≠ p + 3)
    (h5 : q + 1 ≠ p) (h6 : q + 1 ≠ p + 1) (h7 : q + 1 ≠ p + 2)
    (h8 : q + 1 ≠ p + 3) :
    be32 (wrBe16 b q w) p = be32 b p := by
  unfold wrBe16
  rw [be32_wr8_other _ _ _ _ h5 h6 h7 h8, be32_wr8_other _ _ _ _ h1 h2 h3 h4]

lemma getD_set4 (l : List Nat) (p x1 x2 x3 x4 : Nat) (h : p + 3 < l.length) :
    ((((l.set p x1).set (p + 1) x2).set (p + 2) x3).set (p + 3) x4).getD p 0
        = x1 ∧
    ((((l.set p x1).set (p + 1) x2).set (p + 2) x3).set (p + 3) x4).getD
        (p + 1) 0 = x2 ∧
    ((((l.set p x1).set (p + 1) x2).set (p + 2) x3).set (p + 3) x4).getD
        (p + 2) 0 = x3 ∧
    ((((l.set p x1).set (p + 1) x2).set (p + 2) x3).set (p + 3) x4).getD
        (p + 3) 0 = x4 := by
  refine ⟨?_, ?_, ?_, ?_⟩
  · rw [getD_set_ne _ _ _ _ (by omega), getD_set_ne _ _ _ _ (by omega),
        getD_set_ne _ _ _ _ (by omega)]
    exact getD_set_self _ _ _ (by omega)
  · rw [getD_set_ne _ _ _ _ (by omega), getD_set_ne _ _ _ _ (by omega)]
    exact getD_set_self _ _ _ (by simp only [List.length_set]; omega)
  · rw [getD_set_ne _ _ _ _ (by omega)]
    exact getD_set_self _ _ _ (by simp only [List.length_set]; omega)
  · exact getD_set_self _ _ _ (by simp only [List.length_set]; omega)

lemma be32_wrBe32_self (b : VBuf) (p v : Nat) (hv : v < 4294967296)
    (h : p + 3 < b.data.length) :
    be32 (wrBe32 b p v) p = v := by
  obtain ⟨e1, e2, e3, e4⟩ :=
    getD_set4 b.data p (v / 16777216 % 256) (v / 65536 % 256) (v / 256 % 256)
      (v % 256) h
  unfold wrBe32 be32 rd8 wr8
  dsimp only
  rw [e1, e2, e3, e4]
  omega

lemma be32_wrBe32_other (b : VBuf) (q w p : Nat)
    (hq : q + 3 < p ∨ p + 3 < q) :
    be32 (wrBe32 b q w) p = be32 b p := by
  unfold wrBe32
  rw [be32_wr8_other _ _ _ _ (by omega) (by omega) (by omega) (by omega),
      be32_wr8_other _ _ _ _ (by omega) (by omega) (by omega) (by omega),
      be32_wr8_other _ _ _ _ (by omega) (by omega) (by omega) (by omega),
      be32_wr8_other _ _ _ _ (by omega) (by omega) (by omega) (by omega)]

lemma be32_retreat (b : VBuf) (n p : Nat) :
    be32 (VBuf.retreat b n) p = be32 b p := rfl

/-! ### Symbolic TCP first-packet run (for the first-packet claims) -/

/-- Recombined 32-bit big-endian value of four bytes (shape of `be32`). -/
def ipv4n (a b c d : Nat) : Nat := 256 * (256 * (256 * a + b) + c) + d

/-- Recombined 16-bit big-endian value of two bytes (shape of `be16`). -/
def pt16 (a b : Nat) : Nat := 256 * a + b

/-- A 40-byte IPv4/TCP packet with symbolic addresses s./d., ports sp./dp.
and TCP flag byte `fl`: version/IHL 0x45, total length 40, TTL 64,
protocol 6, sequence number 1, data offset 5 (no options). -/
def mkTcpBytes (s1 s2 s3 s4 d1 d2 d3 d4 sp1 sp2 dp1 dp2 fl : Nat) : List Nat :=
  [0x45, 0, 0, 40, 0, 0, 0, 0, 64, 6, 0, 0,
   s1, s2, s3, s4, d1, d2, d3, d4,
   sp1, sp2, dp1, dp2, 0, 0, 0, 1, 0, 0, 0, 0,
   0x50, fl, 0x20, 0, 0, 0, 0, 0]

/-- One run of the node body on the symbolic TCP packet (cursor 0,
current_length 40, as delivered by the host). -/
def tcpRun (cfg : Config) (st : LatencyState)
    (s1 s2 s3 s4 d1 d2 d3 d4 sp1 sp2 dp1 dp2 fl : Nat) : PktOut :=
  latency_pkt cfg st ⟨mkTcpBytes s1 s2 s3 s4 d1 d2 d3 d4 sp1 sp2 dp1 dp2 fl, 0, 40⟩

lemma cur_mk_b (b : VBuf) (t : Nat) : (Cur.mk b t).b = b := rfl

lemma vbuf_mk_len (d : List Nat) (c l : Nat) : (VBuf.mk d c l).len = l := rfl

lemma vbuf_mk_data (d : List Nat) (c l : Nat) : (VBuf.mk d c l).data = d := rfl

lemma cur_adv_b_len (c : Cur) (n : Nat) :
    (c.adv n).b.len = (c.b.len + 65536 - n) % 65536 := rfl

lemma cur_adv_b_data (c : Cur) (n : Nat) : (c.adv n).b.data = c.b.data := rfl

/-- First TCP packet of an unknown flow with a mapped destination port:
the node body reduces to the common tail applied to the freshly created
session (node.c lines 463–499 then 511–547). -/
lemma tcp_hmain_pos (cfg : Config) (st : LatencyState)
    (s1 s2 s3 s4 d1 d2 d3 d4 sp1 sp2 dp1 dp2 fl nd : Nat)
    (hlk : st.tbl (make_key (ipv4n s1 s2 s3 s4) (ipv4n d1 d2 d3 d4)
        (pt16 sp1 sp2) (pt16 dp1 dp2) 6) = none)
    (hnd : cfg.dstMap (pt16 dp1 dp2) = nd)
    (hnd0 : nd ≠ 0)
    (hdec : (!decide (fl &&& 2 ≠ 0 ∧ fl &&& 16 ≠ 0)) = false) :
    tcpRun cfg st s1 s2 s3 s4 d1 d2 d3 d4 sp1 sp2 dp1 dp2 fl =
      node_tail
        { tbl := updTbl (updTbl st.tbl
            (make_key (ipv4n s1 s2 s3 s4) (ipv4n d1 d2 d3 d4) (pt16 sp1 sp2)
              (pt16 dp1 dp2) 6) st.next_index)
            (make_key 0 nd (pt16 sp1 sp2) (pt16 dp1 dp2) 6) st.next_index,
          pool := updPool (updPool st.pool st.next_index
            ⟨P_TCP,
          make_key (ipv4n s1 s2 s3 s4) (ipv4n d1 d2 d3 d4) (pt16 sp1 sp2)
            (pt16 dp1 dp2) 6,
          make_key 0 nd (pt16 sp1 sp2) (pt16 dp1 dp2) 6,
          pt16 sp1 sp2, ipv4n s1 s2 s3 s4, nd, 1, LATENCY_STATE_ACTIVE, 0, 0,
          0, TIMEOUT⟩) st.next_index
            ⟨P_TCP,
          make_key (ipv4n s1 s2 s3 s4) (ipv4n d1 d2 d3 d4) (pt16 sp1 sp2)
            (pt16 dp1 dp2) 6,
          make_key 0 nd (pt16 sp1 sp2) (pt16 dp1 dp2) 6,
          pt16 sp1 sp2, ipv4n s1 s2 s3 s4, nd, 1, LATENCY_STATE_ACTIVE, 0, 0,
          0, TIMEOUT⟩,
          next_index := st.next_index + 1 }
        st.next_index
        ⟨P_TCP,
          make_key (ipv4n s1 s2 s3 s4) (ipv4n d1 d2 d3 d4) (pt16 sp1 sp2)
            (pt16 dp1 dp2) 6,
          make_key 0 nd (pt16 sp1 sp2) (pt16 dp1 dp2) 6,
          pt16 sp1 sp2, ipv4n s1 s2 s3 s4, nd, 1, LATENCY_STATE_ACTIVE, 0, 0,
          0, TIMEOUT⟩
        false 0 (ipv4n s1 s2 s3 s4) (ipv4n d1 d2 d3 d4)
        (Cur.adv (Cur.adv ⟨⟨mkTcpBytes s1 s2 s3 s4 d1 d2 d3 d4 sp1 sp2 dp1
          dp2 fl, 0, 40⟩, 0⟩ 20) 20)
        ⟨false, true, true, false, false, false, false, false⟩ := by
  have h45 : rd8 ⟨mkTcpBytes s1 s2 s3 s4 d1 d2 d3 d4 sp1 sp2 dp1 dp2 fl, 0, 40⟩
      0 = 69 := rfl
  have h6 : rd8 ⟨mkTcpBytes s1 s2 s3 s4 d1 d2 d3 d4 sp1 sp2 dp1 dp2 fl, 0, 40⟩
      (0 + 9) = 6 := rfl
  have h32 : rd8 ⟨mkTcpBytes s1 s2 s3 s4 d1 d2 d3 d4 sp1 sp2 dp1 dp2 fl, 0, 40⟩
      (0 + 20 + 12) = 80 := rfl
  have hb1 : be32 ⟨mkTcpBytes s1 s2 s3 s4 d1 d2 d3 d4 sp1 sp2 dp1 dp2 fl, 0, 40⟩
      (0 + 12) = ipv4n s1 s2 s3 s4 := rfl
  have hb2 : be32 ⟨mkTcpBytes s1 s2 s3 s4 d1 d2 d3 d4 sp1 sp2 dp1 dp2 fl, 0, 40⟩
      (0 + 16) = ipv4n d1 d2 d3 d4 := rfl
  have hb3 : be16 ⟨mkTcpBytes s1 s2 s3 s4 d1 d2 d3 d4 sp1 sp2 dp1 dp2 fl, 0, 40⟩
      (0 + 20) = pt16 sp1 sp2 := rfl
  have hb4 : be16 ⟨mkTcpBytes s1 s2 s3 s4 d1 d2 d3 d4 sp1 sp2 dp1 dp2 fl, 0, 40⟩
      (0 + 22) = pt16 dp1 dp2 := rfl
  have hb5 : rd8 ⟨mkTcpBytes s1 s2 s3 s4 d1 d2 d3 d4 sp1 sp2 dp1 dp2 fl, 0, 40⟩
      (0 + 33) = fl := rfl
  have hpar : tcp_options_parse_mod
      ⟨mkTcpBytes s1 s2 s3 s4 d1 d2 d3 d4 sp1 sp2 dp1 dp2 fl, 0, 40⟩ (0 + 20) =
      some (0, 0) := by
    unfold tcp_options_parse_mod
    rw [h32]
    norm_num
    rfl
  have hres : session_resolve st
      (make_key (ipv4n s1 s2 s3 s4) (ipv4n d1 d2 d3 d4) (pt16 sp1 sp2)
        (pt16 dp1 dp2) 6) nd
      (make_key 0 nd (pt16 sp1 sp2) (pt16 dp1 dp2) 6)
      P_TCP (pt16 sp1 sp2) (ipv4n s1 s2 s3 s4) 0 0 =
      some ((create_session_install st P_TCP
          (make_key (ipv4n s1 s2 s3 s4) (ipv4n d1 d2 d3 d4) (pt16 sp1 sp2)
            (pt16 dp1 dp2) 6)
          (make_key 0 nd (pt16 sp1 sp2) (pt16 dp1 dp2) 6)
          (pt16 sp1 sp2) (ipv4n s1 s2 s3 s4) nd 0 0).1,
        st.next_index,
        (create_session_install st P_TCP
          (make_key (ipv4n s1 s2 s3 s4) (ipv4n d1 d2 d3 d4) (pt16 sp1 sp2)
            (pt16 dp1 dp2) 6)
          (make_key 0 nd (pt16 sp1 sp2) (pt16 dp1 dp2) 6)
          (pt16 sp1 sp2) (ipv4n s1 s2 s3 s4) nd 0 0).2.2,
        true) := by
    unfold session_resolve get_session_from_key
    rw [hlk]
    dsimp only
    rw [if_neg hnd0]
    rfl
  have hlen20 : (Cur.adv ⟨⟨mkTcpBytes s1 s2 s3 s4 d1 d2 d3 d4 sp1 sp2 dp1
      dp2 fl, 0, 40⟩, 0⟩ 20).b.len = 20 := by
    rw [cur_adv_b_len, cur_mk_b, vbuf_mk_len]
  unfold tcpRun latency_pkt
  dsimp only
  rw [if_pos (by omega : (40 : Nat) ≥ 20)]
  simp only [h45]
  rw [if_neg (by decide : ¬((69 : Nat) &&& 240 = 96))]
  simp only [h6]
  rw [if_neg (fun h => absurd h.1 (by decide) : ¬((6 : Nat) = 17 ∧
    (Cur.adv ⟨⟨mkTcpBytes s1 s2 s3 s4 d1 d2 d3 d4 sp1 sp2 dp1 dp2 fl, 0,
      40⟩, 0⟩ 20).b.len ≥ 8))]
  rw [if_pos (⟨trivial, hlen20.symm.le⟩ : True ∧
    (Cur.adv ⟨⟨mkTcpBytes s1 s2 s3 s4 d1 d2 d3 d4 sp1 sp2 dp1 dp2 fl, 0,
      40⟩, 0⟩ 20).b.len ≥ 20)]
  unfold tcp_path
  dsimp only
  rw [hpar]
  dsimp only
  rw [hb1, hb2, hb3, hb4, hb5]
  rw [show get_new_dst cfg (pt16 dp1 dp2) = nd from hnd]
  rw [hres]
  dsimp only
  simp only [create_session_install]
  rw [hdec]
  simp only [Bool.false_eq_true, if_false]
  rfl

/-- First TCP packet of an unknown flow with a mapped destination port:
the node body reduces to the common tail applied to the freshly created
session (node.c lines 463–499 then 511–547). -/
lemma tcp_hmain_neg (cfg : Config) (st : LatencyState)
    (s1 s2 s3 s4 d1 d2 d3 d4 sp1 sp2 dp1 dp2 fl nd : Nat)
    (hlk : st.tbl (make_key (ipv4n s1 s2 s3 s4) (ipv4n d1 d2 d3 d4)
        (pt16 sp1 sp2) (pt16 dp1 dp2) 6) = none)
    (hnd : cfg.dstMap (pt16 dp1 dp2) = nd)
    (hnd0 : nd ≠ 0)
    (hdec : (!decide (fl &&& 2 ≠ 0 ∧ fl &&& 16 ≠ 0)) = true) :
    tcpRun cfg st s1 s2 s3 s4 d1 d2 d3 d4 sp1 sp2 dp1 dp2 fl =
      node_tail
        { tbl := updTbl (updTbl st.tbl
            (make_key (ipv4n s1 s2 s3 s4) (ipv4n d1 d2 d3 d4) (pt16 sp1 sp2)
              (pt16 dp1 dp2) 6) st.next_index)
            (make_key 0 nd (pt16 sp1 sp2) (pt16 dp1 dp2) 6) st.next_index,
          pool := updPool (updPool st.pool st.next_index
            ⟨P_TCP,
          make_key (ipv4n s1 s2 s3 s4) (ipv4n d1 d2 d3 d4) (pt16 sp1 sp2)
            (pt16 dp1 dp2) 6,
          make_key 0 nd (pt16 sp1 sp2) (pt16 dp1 dp2) 6,
          pt16 sp1 sp2, ipv4n s1 s2 s3 s4, nd, 1, LATENCY_STATE_ACTIVE, 0, 0,
          0, TIMEOUT⟩) st.next_index
            ⟨P_TCP,
          make_key (ipv4n s1 s2 s3 s4) (ipv4n d1 d2 d3 d4) (pt16 sp1 sp2)
            (pt16 dp1 dp2) 6,
          make_key 0 nd (pt16 sp1 sp2) (pt16 dp1 dp2) 6,
          pt16 sp1 sp2, ipv4n s1 s2 s3 s4, nd, 1, LATENCY_STATE_ACTIVE, 0, 0,
          1, TIMEOUT⟩,
          next_index := st.next_index + 1 }
        st.next_index
        ⟨P_TCP,
          make_key (ipv4n s1 s2 s3 s4) (ipv4n d1 d2 d3 d4) (pt16 sp1 sp2)
            (pt16 dp1 dp2) 6,
          make_key 0 nd (pt16 sp1 sp2) (pt16 dp1 dp2) 6,
          pt16 sp1 sp2, ipv4n s1 s2 s3 s4, nd, 1, LATENCY_STATE_ACTIVE, 0, 0,
          1, TIMEOUT⟩
        false 0 (ipv4n s1 s2 s3 s4) (ipv4n d1 d2 d3 d4)
        (Cur.adv (Cur.adv ⟨⟨mkTcpBytes s1 s2 s3 s4 d1 d2 d3 d4 sp1 sp2 dp1
          dp2 fl, 0, 40⟩, 0⟩ 20) 20)
        ⟨false, true, true, true, false, false, false, false⟩ := by
  have h45 : rd8 ⟨mkTcpBytes s1 s2 s3 s4 d1 d2 d3 d4 sp1 sp2 dp1 dp2 fl, 0, 40⟩
      0 = 69 := rfl
  have h6 : rd8 ⟨mkTcpBytes s1 s2 s3 s4 d1 d2 d3 d4 sp1 sp2 dp1 dp2 fl, 0, 40⟩
      (0 + 9) = 6 := rfl
  have h32 : rd8 ⟨mkTcpBytes s1 s2 s3 s4 d1 d2 d3 d4 sp1 sp2 dp1 dp2 fl, 0, 40⟩
      (0 + 20 + 12) = 80 := rfl
  have hb1 : be32 ⟨mkTcpBytes s1 s2 s3 s4 d1 d2 d3 d4 sp1 sp2 dp1 dp2 fl, 0, 40⟩
      (0 + 12) = ipv4n s1 s2 s3 s4 := rfl
  have hb2 : be32 ⟨mkTcpBytes s1 s2 s3 s4 d1 d2 d3 d4 sp1 sp2 dp1 dp2 fl, 0, 40⟩
      (0 + 16) = ipv4n d1 d2 d3 d4 := rfl
  have hb3 : be16 ⟨mkTcpBytes s1 s2 s3 s4 d1 d2 d3 d4 sp1 sp2 dp1 dp2 fl, 0, 40⟩
      (0 + 20) = pt16 sp1 sp2 := rfl
  have hb4 : be16 ⟨mkTcpBytes s1 s2 s3 s4 d1 d2 d3 d4 sp1 sp2 dp1 dp2 fl, 0, 40⟩
      (0 + 22) = pt16 dp1 dp2 := rfl
  have hb5 : rd8 ⟨mkTcpBytes s1 s2 s3 s4 d1 d2 d3 d4 sp1 sp2 dp1 dp2 fl, 0, 40⟩
      (0 + 33) = fl := rfl
  have hpar : tcp_options_parse_mod
      ⟨mkTcpBytes s1 s2 s3 s4 d1 d2 d3 d4 sp1 sp2 dp1 dp2 fl, 0, 40⟩ (0 + 20) =
      some (0, 0) := by
    unfold tcp_options_parse_mod
    rw [h32]
    norm_num
    rfl
  have hres : session_resolve st
      (make_key (ipv4n s1 s2 s3 s4) (ipv4n d1 d2 d3 d4) (pt16 sp1 sp2)
        (pt16 dp1 dp2) 6) nd
      (make_key 0 nd (pt16 sp1 sp2) (pt16 dp1 dp2) 6)
      P_TCP (pt16 sp1 sp2) (ipv4n s1 s2 s3 s4) 0 0 =
      some ((create_session_install st P_TCP
          (make_key (ipv4n s1 s2 s3 s4) (ipv4n d1 d2 d3 d4) (pt16 sp1 sp2)
            (pt16 dp1 dp2) 6)
          (make_key 0 nd (pt16 sp1 sp2) (pt16 dp1 dp2) 6)
          (pt16 sp1 sp2) (ipv4n s1 s2 s3 s4) nd 0 0).1,
        st.next_index,
        (create_session_install st P_TCP
          (make_key (ipv4n s1 s2 s3 s4) (ipv4n d1 d2 d3 d4) (pt16 sp1 sp2)
            (pt16 dp1 dp2) 6)
          (make_key 0 nd (pt16 sp1 sp2) (pt16 dp1 dp2) 6)
          (pt16 sp1 sp2) (ipv4n s1 s2 s3 s4) nd 0 0).2.2,
        true) := by
    unfold session_resolve get_session_from_key
    rw [hlk]
    dsimp only
    rw [if_neg hnd0]
    rfl
  have hlen20 : (Cur.adv ⟨⟨mkTcpBytes s1 s2 s3 s4 d1 d2 d3 d4 sp1 sp2 dp1
      dp2 fl, 0, 40⟩, 0⟩ 20).b.len = 20 := by
    rw [cur_adv_b_len, cur_mk_b, vbuf_mk_len]
  unfold tcpRun latency_pkt
  dsimp only
  rw [if_pos (by omega : (40 : Nat) ≥ 20)]
  simp only [h45]
  rw [if_neg (by decide : ¬((69 : Nat) &&& 240 = 96))]
  simp only [h6]
  rw [if_neg (fun h => absurd h.1 (by decide) : ¬((6 : Nat) = 17 ∧
    (Cur.adv ⟨⟨mkTcpBytes s1 s2 s3 s4 d1 d2 d3 d4 sp1 sp2 dp1 dp2 fl, 0,
      40⟩, 0⟩ 20).b.len ≥ 8))]
  rw [if_pos (⟨trivial, hlen20.symm.le⟩ : True ∧
    (Cur.adv ⟨⟨mkTcpBytes s1 s2 s3 s4 d1 d2 d3 d4 sp1 sp2 dp1 dp2 fl, 0,
      40⟩, 0⟩ 20).b.len ≥ 20)]
  unfold tcp_path
  dsimp only
  rw [hpar]
  dsimp only
  rw [hb1, hb2, hb3, hb4, hb5]
  rw [show get_new_dst cfg (pt16 dp1 dp2) = nd from hnd]
  rw [hres]
  dsimp only
  simp only [create_session_install]
  rw [hdec]
  simp only [eq_self_iff_true, if_true]
  rfl

lemma tcp_first_packet_run (cfg : Config) (st : LatencyState)
    (s1 s2 s3 s4 d1 d2 d3 d4 sp1 sp2 dp1 dp2 fl nd : Nat)
    (hlk : st.tbl (make_key (ipv4n s1 s2 s3 s4) (ipv4n d1 d2 d3 d4)
        (pt16 sp1 sp2) (pt16 dp1 dp2) 6) = none)
    (hnd : cfg.dstMap (pt16 dp1 dp2) = nd)
    (hnd0 : nd ≠ 0) (hnd32 : nd < 4294967296) :
    (tcpRun cfg st s1 s2 s3 s4 d1 d2 d3 d4 sp1 sp2 dp1 dp2 fl).st.pool
        st.next_index =
      some ⟨P_TCP,
        make_key (ipv4n s1 s2 s3 s4) (ipv4n d1 d2 d3 d4) (pt16 sp1 sp2)
          (pt16 dp1 dp2) 6,
        make_key 0 nd (pt16 sp1 sp2) (pt16 dp1 dp2) 6,
        pt16 sp1 sp2, ipv4n s1 s2 s3 s4, nd, 2, LATENCY_STATE_ACTIVE, 0, 0,
        (if (!decide (fl &&& 2 ≠ 0 ∧ fl &&& 16 ≠ 0)) = true then 1 else 0),
        TIMEOUT⟩ ∧
    be32 (tcpRun cfg st s1 s2 s3 s4 d1 d2 d3 d4 sp1 sp2 dp1 dp2 fl).buf
        (0 + 16) = nd ∧
    (tcpRun cfg st s1 s2 s3 s4 d1 d2 d3 d4 sp1 sp2 dp1 dp2 fl).eff =
      ⟨false, true, true, !decide (fl &&& 2 ≠ 0 ∧ fl &&& 16 ≠ 0), false,
        true, true, true⟩ ∧
    (tcpRun cfg st s1 s2 s3 s4 d1 d2 d3 d4 sp1 sp2 dp1 dp2 fl).st.tbl
        (make_key (ipv4n s1 s2 s3 s4) (ipv4n d1 d2 d3 d4) (pt16 sp1 sp2)
          (pt16 dp1 dp2) 6) = some st.next_index := by
  have hb32self : be32 (wrBe32
      (Cur.adv (Cur.adv ⟨⟨mkTcpBytes s1 s2 s3 s4 d1 d2 d3 d4 sp1 sp2 dp1 dp2
        fl, 0, 40⟩, 0⟩ 20) 20).b (0 + 16) nd) (0 + 16) = nd := by
    refine be32_wrBe32_self _ _ _ hnd32 ?_
    rw [cur_adv_b_data, cur_adv_b_data, cur_mk_b, vbuf_mk_data]
    simp [mkTcpBytes]
  by_cases hsa : (fl &&& 2 ≠ 0 ∧ fl &&& 16 ≠ 0)
  · have hdec : (!decide (fl &&& 2 ≠ 0 ∧ fl &&& 16 ≠ 0)) = false := by
      simp [hsa.1, hsa.2]
    rw [hdec]
    simp only [Bool.false_eq_true, if_false]
    rw [tcp_hmain_pos cfg st s1 s2 s3 s4 d1 d2 d3 d4 sp1 sp2 dp1 dp2 fl nd
      hlk hnd hnd0 hdec]
    unfold node_tail
    dsimp only [pkt_count_step]
    unfold ip_nat_translation
    rw [if_pos rfl]
    dsimp only
    rw [if_pos rfl]
    dsimp only [doneOut]
    simp only [Bool.false_eq_true, if_false]
    refine ⟨?_, ?_, ?_, ?_⟩
    · simp [updPool]
    · rw [be32_retreat,
        be32_wrBe16_other _ _ _ _ (by omega) (by omega) (by omega) (by omega)
          (by omega) (by omega) (by omega) (by omega),
        be32_wrBe16_other _ _ _ _ (by omega) (by omega) (by omega) (by omega)
          (by omega) (by omega) (by omega) (by omega),
        be32_wrBe16_other _ _ _ _ (by omega) (by omega) (by omega) (by omega)
          (by omega) (by omega) (by omega) (by omega)]
      exact hb32self
    · trivial
    · by_cases hkk : (make_key (ipv4n s1 s2 s3 s4) (ipv4n d1 d2 d3 d4)
        (pt16 sp1 sp2) (pt16 dp1 dp2) 6) =
        (make_key 0 nd (pt16 sp1 sp2) (pt16 dp1 dp2) 6) <;>
        simp [updTbl, hkk]
  · have hdec : (!decide (fl &&& 2 ≠ 0 ∧ fl &&& 16 ≠ 0)) = true := by
      simp [hsa]
    rw [hdec]
    simp only [eq_self_iff_true, if_true]
    rw [tcp_hmain_neg cfg st s1 s2 s3 s4 d1 d2 d3 d4 sp1 sp2 dp1 dp2 fl nd
      hlk hnd hnd0 hdec]
    unfold node_tail
    dsimp only [pkt_count_step]
    unfold ip_nat_translation
    rw [if_pos rfl]
    dsimp only
    rw [if_pos rfl]
    dsimp only [doneOut]
    simp only [Bool.false_eq_true, if_false]
    refine ⟨?_, ?_, ?_, ?_⟩
    · simp [updPool]
    · rw [be32_retreat,
        be32_wrBe16_other _ _ _ _ (by omega) (by omega) (by omega) (by omega)
          (by omega) (by omega) (by omega) (by omega),
        be32_wrBe16_other _ _ _ _ (by omega) (by omega) (by omega) (by omega)
          (by omega) (by omega) (by omega) (by omega),
        be32_wrBe16_other _ _ _ _ (by omega) (by omega) (by omega) (by omega)
          (by omega) (by omega) (by omega) (by omega)]
      exact hb32self
    · trivial
    · by_cases hkk : (make_key (ipv4n s1 s2 s3 s4) (ipv4n d1 d2 d3 d4)
        (pt16 sp1 sp2) (pt16 dp1 dp2) 6) =
        (make_key 0 nd (pt16 sp1 sp2) (pt16 dp1 dp2) 6) <;>
        simp [updTbl, hkk]


/-! ### C9: TCP first packet creates a session -/

/-- C9: the first TCP packet of an unknown flow whose destination port maps
to a backend creates a session with protocol variant TCP, `init_src_ip` and
`init_src_port` frozen from the packet's source address and port, and
`new_dst_ip` from the destination map (node.c lines 466–499); after the
pipeline the outgoing packet's destination IP equals the backend address and
the session's `pkt_count` equals 2 — initialized to 1 at creation, then
incremented once at line 516. -/
theorem C9_tcp_first_packet_creates_session (cfg : Config)
    (st : LatencyState) (s1 s2 s3 s4 d1 d2 d3 d4 sp1 sp2 dp1 dp2 fl nd : Nat)
    (hlk : st.tbl (make_key (ipv4n s1 s2 s3 s4) (ipv4n d1 d2 d3 d4)
        (pt16 sp1 sp2) (pt16 dp1 dp2) 6) = none)
    (hnd : cfg.dstMap (pt16 dp1 dp2) = nd)
    (hnd0 : nd ≠ 0) (hnd32 : nd < 4294967296) :
    ∃ s : LatencySession,
      (tcpRun cfg st s1 s2 s3 s4 d1 d2 d3 d4 sp1 sp2 dp1 dp2 fl).st.pool
          st.next_index = some s ∧
      s.p_type = P_TCP ∧
      s.init_src_ip = ipv4n s1 s2 s3 s4 ∧
      s.init_src_port = pt16 sp1 sp2 ∧
      s.new_dst_ip = nd ∧
      s.pkt_count = 2 ∧
      be32 (tcpRun cfg st s1 s2 s3 s4 d1 d2 d3 d4 sp1 sp2 dp1 dp2 fl).buf
        (0 + 16) = nd := by
  obtain ⟨h1, h2, -, -⟩ := tcp_first_packet_run cfg st s1 s2 s3 s4 d1 d2 d3
    d4 sp1 sp2 dp1 dp2 fl nd hlk hnd hnd0 hnd32
  exact ⟨_, h1, rfl, rfl, rfl, rfl, rfl, h2⟩

/-- Witness for C9 at the spec scenario 8.1: IPv4/TCP SYN (flag byte 2) from
10.0.0.1:5000 to 10.0.0.2:80 against an empty state, with
dst-map[80] = 192.168.1.10 (= 3232235786). -/
theorem C9_witness :
    exEmpty.tbl (make_key (ipv4n 10 0 0 1) (ipv4n 10 0 0 2) (pt16 19 136)
        (pt16 0 80) 6) = none ∧
    exCfg.dstMap (pt16 0 80) = 3232235786 ∧
    (3232235786 : Nat) ≠ 0 ∧
    (∃ s : LatencySession,
      (tcpRun exCfg exEmpty 10 0 0 1 10 0 0 2 19 136 0 80 2).st.pool
          exEmpty.next_index = some s ∧
      s.p_type = P_TCP ∧
      s.init_src_ip = ipv4n 10 0 0 1 ∧
      s.init_src_port = pt16 19 136 ∧
      s.new_dst_ip = 3232235786 ∧
      s.pkt_count = 2 ∧
      be32 (tcpRun exCfg exEmpty 10 0 0 1 10 0 0 2 19 136 0 80 2).buf
        (0 + 16) = 3232235786) :=
  ⟨rfl, by decide, by decide,
    C9_tcp_first_packet_creates_session exCfg exEmpty 10 0 0 1 10 0 0 2 19
      136 0 80 2 3232235786 rfl (by decide) (by decide) (by decide)⟩

/-! ### C10: SYN+ACK is excluded only from estimation -/

/-- C10: a TCP packet with both SYN and ACK set is excluded only from RTT
estimation (node.c lines 450–453 clear `make_measurement`): on an unknown
flow with a mapped destination port it still creates a session that freezes
the SYN+ACK's own source as initiator, its `pkt_count` is incremented to 2,
no estimator update is recorded, and the packet still traverses the IP
rewrite, checksum recomputation and timer re-arm steps. -/
theorem C10_synack_skips_only_estimation (cfg : Config) (st : LatencyState)
    (s1 s2 s3 s4 d1 d2 d3 d4 sp1 sp2 dp1 dp2 fl nd : Nat)
    (hlk : st.tbl (make_key (ipv4n s1 s2 s3 s4) (ipv4n d1 d2 d3 d4)
        (pt16 sp1 sp2) (pt16 dp1 dp2) 6) = none)
    (hnd : cfg.dstMap (pt16 dp1 dp2) = nd)
    (hnd0 : nd ≠ 0) (hnd32 : nd < 4294967296)
    (hsyn : fl &&& 2 ≠ 0) (hack : fl &&& 16 ≠ 0) :
    (tcpRun cfg st s1 s2 s3 s4 d1 d2 d3 d4 sp1 sp2 dp1 dp2 fl).st.pool
        st.next_index =
      some ⟨P_TCP,
        make_key (ipv4n s1 s2 s3 s4) (ipv4n d1 d2 d3 d4) (pt16 sp1 sp2)
          (pt16 dp1 dp2) 6,
        make_key 0 nd (pt16 sp1 sp2) (pt16 dp1 dp2) 6,
        pt16 sp1 sp2, ipv4n s1 s2 s3 s4, nd, 2, LATENCY_STATE_ACTIVE, 0, 0,
        0, TIMEOUT⟩ ∧
    be32 (tcpRun cfg st s1 s2 s3 s4 d1 d2 d3 d4 sp1 sp2 dp1 dp2 fl).buf
        (0 + 16) = nd ∧
    (tcpRun cfg st s1 s2 s3 s4 d1 d2 d3 d4 sp1 sp2 dp1 dp2 fl).eff =
      ⟨false, true, true, false, false, true, true, true⟩ := by
  have hdec : (!decide (fl &&& 2 ≠ 0 ∧ fl &&& 16 ≠ 0)) = false := by
    simp [hsyn, hack]
  have h := tcp_first_packet_run cfg st s1 s2 s3 s4 d1 d2 d3 d4 sp1 sp2 dp1
    dp2 fl nd hlk hnd hnd0 hnd32
  rw [hdec] at h
  simp only [Bool.false_eq_true, if_false] at h
  exact ⟨h.1, h.2.1, h.2.2.1⟩

/-- Witness for C10: the same first-packet scenario with TCP flag byte
0x12 (SYN+ACK). -/
theorem C10_witness :
    (18 : Nat) &&& 2 ≠ 0 ∧ (18 : Nat) &&& 16 ≠ 0 ∧
    ((tcpRun exCfg exEmpty 10 0 0 1 10 0 0 2 19 136 0 80 18).st.pool
        exEmpty.next_index =
      some ⟨P_TCP,
        make_key (ipv4n 10 0 0 1) (ipv4n 10 0 0 2) (pt16 19 136) (pt16 0 80)
          6,
        make_key 0 3232235786 (pt16 19 136) (pt16 0 80) 6,
        pt16 19 136, ipv4n 10 0 0 1, 3232235786, 2, LATENCY_STATE_ACTIVE, 0,
        0, 0, TIMEOUT⟩ ∧
      be32 (tcpRun exCfg exEmpty 10 0 0 1 10 0 0 2 19 136 0 80 18).buf
        (0 + 16) = 3232235786 ∧
      (tcpRun exCfg exEmpty 10 0 0 1 10 0 0 2 19 136 0 80 18).eff =
        ⟨false, true, true, false, false, true, true, true⟩) :=
  ⟨by decide, by decide,
    C10_synack_skips_only_estimation exCfg exEmpty 10 0 0 1 10 0 0 2 19 136
      0 80 18 3232235786 rfl (by decide) (by decide) (by decide) (by decide)
      (by decide)⟩

/-! ### C4: QUIC overrun handling -/

/-- IPv4/UDP packet from the QUIC source port with a 3-byte short-header
payload: type byte 0x41 (HAS_ID set, packet-number case 1), so the 8-byte
connection-ID read would overrun the 2 bytes that remain after the type
byte (node.c line 245). -/
def exPktQuicShort : List Nat :=
  [0x45, 0, 0, 31, 0, 0, 0, 0, 64, 17, 0, 0,
   10, 0, 0, 1, 10, 0, 0, 2,
   0x11, 0x51, 0, 80, 0, 11, 0, 0,
   0x41, 7, 1]

/-- The same packet with long-header type byte 0x80: the connection-ID,
packet-number and version reads (node.c lines 210–231) all overrun the 2
bytes that remain after the type byte. -/
def exPktQuicLong : List Nat :=
  [0x45, 0, 0, 31, 0, 0, 0, 0, 64, 17, 0, 0,
   10, 0, 0, 1, 10, 0, 0, 2,
   0x11, 0x51, 0, 80, 0, 11, 0, 0,
   0x80, 7, 1]

/-- C4 (amended): whenever the QUIC header parse itself signals an overrun —
which it does only for the short-header packet-number reads and the
measurement byte (node.c lines 254–299) — the QUIC path skips the packet
with no session lookup, creation or update and no estimator run.  The
long-header field reads (lines 210–231) and the short-header connection-ID
read (line 245) carry no such check; the counterexample shows packets
overrunning them are processed and create sessions. -/
theorem C4_quic_parse_fail_skips (cfg : Config) (st : LatencyState)
    (c0 srcip dstip proto sport dport : Nat) (c cf : Cur)
    (h : quic_parse c = Sum.inl cf) :
    quic_path cfg st c0 srcip dstip proto sport dport c =
      skipOut st cf eff0 := by
  unfold quic_path
  rw [h]

/-- Witness for C4: a short-header packet whose 16-bit packet-number read
overruns the single remaining byte is skipped by the parse. -/
theorem C4_witness :
    quic_parse ⟨⟨[2, 9], 0, 2⟩, 28⟩ =
      Sum.inl (Cur.adv ⟨⟨[2, 9], 0, 2⟩, 28⟩ 1) ∧
    quic_path exCfg exEmpty 0 167772161 167772162 17 4433 80
        ⟨⟨[2, 9], 0, 2⟩, 28⟩ =
      skipOut exEmpty (Cur.adv ⟨⟨[2, 9], 0, 2⟩, 28⟩ 1) eff0 :=
  ⟨by decide,
    C4_quic_parse_fail_skips exCfg exEmpty 0 167772161 167772162 17 4433 80
      _ _ (by decide)⟩

/-- C4 counterexample: a short-header QUIC packet whose HAS_ID
connection-ID read would overrun is not skipped — it is processed, creates
a session and runs the estimator — and a long-header packet with only 2
bytes after the type byte, overrunning the connection-ID, packet-number and
version reads, likewise creates a session. -/
theorem C4_counterexample :
    ((latency_pkt exCfg exEmpty ⟨exPktQuicShort, 0, 31⟩).eff.skipped =
        false ∧
      (latency_pkt exCfg exEmpty ⟨exPktQuicShort, 0, 31⟩).eff.created =
        true ∧
      (latency_pkt exCfg exEmpty ⟨exPktQuicShort, 0, 31⟩).eff.estRan =
        true) ∧
    ((latency_pkt exCfg exEmpty ⟨exPktQuicLong, 0, 31⟩).eff.skipped =
        false ∧
      (latency_pkt exCfg exEmpty ⟨exPktQuicLong, 0, 31⟩).eff.created =
        true ∧
      (latency_pkt exCfg exEmpty ⟨exPktQuicLong, 0, 31⟩).eff.estRan =
        true) := by
  decide


end VppLatency
